import Mathlib

/-!
Shallow embedding of the todo-list core of this repository
(`src/todocli/models.py` and `src/todocli/storage.py`).

Python values that can appear in a todo record or a JSON file are modelled
by `PyVal`; Python exceptions that the embedded code can raise are modelled
by `PyError`; fallible Python code returns `Except PyError _`.  The
nondeterministic dataclass defaults (`uuid4()` for `id`, `datetime.now()`
for `created_at`) are passed in as explicit `fresh`/`now` parameters.
The filesystem visible to `TodoStorage` is a map from path strings to file
contents, where a content is either text that fails JSON parsing
(`malformed`) or the parsed JSON value.
-/

namespace Todocli

/-- The `Priority` enumeration from `models.py` (`class Priority(str, Enum)`). -/
inductive Priority where
  | low
  | medium
  | high
deriving DecidableEq, Repr

/-- The `.value` of a `Priority` member, i.e. its serialized string. -/
def Priority.value : Priority → String
  | .low => "low"
  | .medium => "medium"
  | .high => "high"

/-- The call `Priority(s)` on a string: member lookup by value, `Option.none`
models the `ValueError` Python raises for an unrecognized value. -/
def Priority.ofString? (s : String) : Option Priority :=
  if s == "low" then some .low
  else if s == "medium" then some .medium
  else if s == "high" then some .high
  else Option.none

/-- Python runtime values relevant to the todo core: JSON-representable
values plus `Priority` enum members (which in Python are also `str`
instances, `Priority` being a `str` subclass). -/
inductive PyVal where
  | none
  | bool (b : Bool)
  | int (n : Int)
  | str (s : String)
  | list (xs : List PyVal)
  | dict (kvs : List (String × PyVal))
  | priority (p : Priority)

/-- The Python exceptions the embedded code can raise. -/
inductive PyError where
  | jsonDecodeError
  | keyError
  | valueError
  | typeError
  | attributeError
deriving DecidableEq, Repr

/-- Python truthiness (`bool(v)`) for the modelled values.  A `Priority`
member is a nonempty string, hence truthy. -/
def truthy : PyVal → Bool
  | .none => false
  | .bool b => b
  | .int n => n != 0
  | .str s => s != ""
  | .list xs => !xs.isEmpty
  | .dict kvs => !kvs.isEmpty
  | .priority _ => true

/-- Lookup in a Python dict modelled as an association list (keys produced
by `json.load` or `to_dict` are unique, so first-occurrence lookup agrees
with dict semantics). -/
def dictLookup (k : String) : List (String × PyVal) → Option PyVal
  | [] => Option.none
  | (l, v) :: rest => if l == k then some v else dictLookup k rest

/-- Assignment `d[k] = v` on a Python dict: replace the value at an
existing key in place, append if the key is absent. -/
def dictSet (k : String) (v : PyVal) : List (String × PyVal) → List (String × PyVal)
  | [] => [(k, v)]
  | (l, w) :: rest => if l == k then (l, v) :: rest else (l, w) :: dictSet k v rest

/-- One todo record.  Field values are arbitrary Python values because
Python dataclasses do not check the types of constructor arguments. -/
structure Todo where
  id : PyVal
  title : PyVal
  description : PyVal
  completed : PyVal
  priority : PyVal
  category : PyVal
  due_date : PyVal
  created_at : PyVal
  completed_at : PyVal

/-- The dataclass field names of `Todo`, in declaration order. -/
def todoFields : List String :=
  ["id", "title", "description", "completed", "priority", "category",
   "due_date", "created_at", "completed_at"]

/-- `Todo.to_dict` from `models.py`: all nine fields, with the priority
field serialized via `.value` when it actually holds a `Priority` member
and passed through raw otherwise. -/
def Todo.to_dict (t : Todo) : List (String × PyVal) :=
  [("id", t.id),
   ("title", t.title),
   ("description", t.description),
   ("completed", t.completed),
   ("priority", match t.priority with
                | .priority p => .str p.value
                | v => v),
   ("category", t.category),
   ("due_date", t.due_date),
   ("created_at", t.created_at),
   ("completed_at", t.completed_at)]

/-- The call `cls(**data_copy)`: every keyword must be a dataclass field
name (otherwise Python raises `TypeError`); present fields take the given
value unchecked, absent fields take their dataclass default (`fresh`
models the `uuid4()` default for `id`, `now` the `datetime.now()`
default for `created_at`). -/
def Todo.applyKwargs (fresh now : String) (kvs : List (String × PyVal)) :
    Except PyError Todo :=
  if kvs.all (fun kv => todoFields.contains kv.1) then
    .ok
      { id := (dictLookup "id" kvs).getD (.str fresh)
        title := (dictLookup "title" kvs).getD (.str "")
        description := (dictLookup "description" kvs).getD (.str "")
        completed := (dictLookup "completed" kvs).getD (.bool false)
        priority := (dictLookup "priority" kvs).getD (.priority .medium)
        category := (dictLookup "category" kvs).getD (.str "")
        due_date := (dictLookup "due_date" kvs).getD .none
        created_at := (dictLookup "created_at" kvs).getD (.str now)
        completed_at := (dictLookup "completed_at" kvs).getD .none }
  else .error .typeError

/-- `Todo.from_dict` from `models.py`.  On a dict: if a `"priority"` key
holds a `str` (which includes `Priority` members, `str` subclasses), it is
replaced by `Priority(value)` — raising `ValueError` for a string outside
the enumeration — and then `cls(**data_copy)` is applied.  On a list,
Python reaches a `TypeError` (`lst["priority"]` or `cls(**lst)`); on any
other value, `data.copy()` raises `AttributeError`. -/
def Todo.from_dict (fresh now : String) (data : PyVal) : Except PyError Todo :=
  match data with
  | .dict kvs =>
    match dictLookup "priority" kvs with
    | some (.str s) =>
      match Priority.ofString? s with
      | some pr => Todo.applyKwargs fresh now (dictSet "priority" (.priority pr) kvs)
      | Option.none => .error .valueError
    | some (.priority p) =>
      Todo.applyKwargs fresh now (dictSet "priority" (.priority p) kvs)
    | _ => Todo.applyKwargs fresh now kvs
  | .list _ => .error .typeError
  | _ => .error .attributeError

/-- Does a value have Python type `str` (excluding the `Priority` subclass,
which a well-typed record never stores raw in a `str` field)? -/
def isStrVal : PyVal → Bool
  | .str _ => true
  | _ => false

/-- Does a value have Python type `bool`? -/
def isBoolVal : PyVal → Bool
  | .bool _ => true
  | _ => false

/-- Is a value a `Priority` member? -/
def isPriorityVal : PyVal → Bool
  | .priority _ => true
  | _ => false

/-- Is a value `None` or a `str` (the shape of `Optional[str]` fields)? -/
def isOptStrVal : PyVal → Bool
  | .none => true
  | .str _ => true
  | _ => false

/-- A well-typed todo record: each field holds a value of the type the
dataclass annotations advertise. -/
def Todo.valid (t : Todo) : Bool :=
  isStrVal t.id && isStrVal t.title && isStrVal t.description &&
  isBoolVal t.completed && isPriorityVal t.priority && isStrVal t.category &&
  isOptStrVal t.due_date && isStrVal t.created_at && isOptStrVal t.completed_at

/-- Shape of a `"priority"` entry that `from_dict` accepts without raising:
absent, a recognized string, a `Priority` member, or any non-string value
(which the dataclass stores unchecked). -/
def priorityOk (kvs : List (String × PyVal)) : Bool :=
  match dictLookup "priority" kvs with
  | some (.str s) => (Priority.ofString? s).isSome
  | _ => true

/-- A `datetime` value's civil fields, to microsecond precision. -/
structure DateTime where
  year : Nat
  month : Nat
  day : Nat
  hour : Nat
  minute : Nat
  second : Nat
  microsecond : Nat
deriving DecidableEq, Repr

/-- The result of `datetime.fromisoformat`: the civil fields plus the
timezone offset in microseconds when the string carried one (an aware
datetime); `Option.none` models a naive result. -/
structure ParsedDateTime where
  dt : DateTime
  tz : Option Int
deriving DecidableEq, Repr

/-- Python `<` on two naive datetimes: lexicographic on the fields. -/
def DateTime.lt (a b : DateTime) : Bool :=
  if a.year != b.year then decide (a.year < b.year)
  else if a.month != b.month then decide (a.month < b.month)
  else if a.day != b.day then decide (a.day < b.day)
  else if a.hour != b.hour then decide (a.hour < b.hour)
  else if a.minute != b.minute then decide (a.minute < b.minute)
  else if a.second != b.second then decide (a.second < b.second)
  else decide (a.microsecond < b.microsecond)

/-- Numeric value of a decimal digit character. -/
def digitVal (c : Char) : Nat := c.toNat - 48

/-- A two-digit decimal group, `Option.none` if either char is not a digit. -/
def parse2 (a b : Char) : Option Nat :=
  if a.isDigit && b.isDigit then some (digitVal a * 10 + digitVal b)
  else Option.none

/-- A four-digit decimal group. -/
def parse4 (a b c d : Char) : Option Nat :=
  if a.isDigit && b.isDigit && c.isDigit && d.isDigit then
    some (digitVal a * 1000 + digitVal b * 100 + digitVal c * 10 + digitVal d)
  else Option.none

/-- Gregorian leap-year rule. -/
def isLeap (y : Nat) : Bool :=
  y % 4 == 0 && (y % 100 != 0 || y % 400 == 0)

/-- Number of days in a month, as `datetime` validates it. -/
def daysInMonth (y m : Nat) : Nat :=
  if m == 2 then (if isLeap y then 29 else 28)
  else if m == 4 || m == 6 || m == 9 || m == 11 then 30
  else 31

/-- The fractional-second part after the dot, as `_parse_hh_mm_ss_ff`
accepts it: exactly three digits (milliseconds) or six digits
(microseconds). -/
def parseFrac : List Char → Option Nat
  | [a, b, c] =>
    if a.isDigit && b.isDigit && c.isDigit then
      some ((digitVal a * 100 + digitVal b * 10 + digitVal c) * 1000)
    else Option.none
  | [a, b, c, d, e, f] =>
    if a.isDigit && b.isDigit && c.isDigit && d.isDigit && e.isDigit && f.isDigit then
      some (digitVal a * 100000 + digitVal b * 10000 + digitVal c * 1000 +
        digitVal d * 100 + digitVal e * 10 + digitVal f)
    else Option.none
  | _ => Option.none

/-- `_parse_hh_mm_ss_ff`: `HH`, `HH:MM`, `HH:MM:SS`, optionally followed
(after full seconds only) by a dot and a three- or six-digit fraction.
Two-digit groups with `:` separators; no range validation here — the
`datetime` constructor validates the time fields afterwards. -/
def parseHHMMSSFF (cs : List Char) : Option (Nat × Nat × Nat × Nat) :=
  match cs with
  | h1 :: h2 :: rest =>
    match parse2 h1 h2 with
    | some h =>
      match rest with
      | [] => some (h, 0, 0, 0)
      | sep1 :: m1 :: m2 :: rest2 =>
        if sep1 == ':' then
          match parse2 m1 m2 with
          | some m =>
            match rest2 with
            | [] => some (h, m, 0, 0)
            | sep2 :: s1 :: s2 :: rest3 =>
              if sep2 == ':' then
                match parse2 s1 s2 with
                | some s =>
                  match rest3 with
                  | [] => some (h, m, s, 0)
                  | dot :: fracChars =>
                    if dot == '.' then
                      match parseFrac fracChars with
                      | some f => some (h, m, s, f)
                      | Option.none => Option.none
                    else Option.none
                | Option.none => Option.none
              else Option.none
            | _ => Option.none
          | Option.none => Option.none
        else Option.none
      | _ => Option.none
    | Option.none => Option.none
  | _ => Option.none

/-- Position of the timezone sign in the time string: the first `-` if
one occurs, else the first `+` (CPython's
`tstr.find('-') + 1 or tstr.find('+') + 1`). -/
def tzSignPos (tstr : List Char) : Option Nat :=
  match tstr.findIdx? (fun c => c == '-') with
  | some i => some i
  | Option.none => tstr.findIdx? (fun c => c == '+')

/-- `_parse_isoformat_time`: a time string of length at least two, split
at the timezone sign if present; the offset string must have length 5, 8
or 15 (`HH:MM`, `HH:MM:SS`, `HH:MM:SS.ffffff`) and its total must be
strictly below 24 hours (the `timezone` constructor's range check).  The
offset is returned in signed microseconds. -/
def parseTimeAndTz (tstr : List Char) :
    Option ((Nat × Nat × Nat × Nat) × Option Int) :=
  if tstr.length < 2 then Option.none
  else
    match tzSignPos tstr with
    | Option.none =>
      match parseHHMMSSFF tstr with
      | some tc => some (tc, Option.none)
      | Option.none => Option.none
    | some i =>
      match parseHHMMSSFF (tstr.take i) with
      | Option.none => Option.none
      | some tc =>
        let tzstr := tstr.drop (i + 1)
        if tzstr.length == 5 || tzstr.length == 8 || tzstr.length == 15 then
          match parseHHMMSSFF tzstr with
          | some (th, tm, ts, tf) =>
            let total : Int := (((th * 3600 + tm * 60 + ts) * 1000000 + tf : Nat) : Int)
            if total < 24 * 3600 * 1000000 then
              let sign : Int := if tstr.get? i = some '-' then -1 else 1
              some (tc, some (sign * total))
            else Option.none
          | Option.none => Option.none
        else Option.none

/-- `datetime.fromisoformat` on a char list: a ten-character `YYYY-MM-DD`
date (year 1–9999, month and day validated), optionally followed by a
separator character (never itself inspected) and a time part; an empty
time part after the separator yields midnight, exactly as CPython's
`date_string[11:]` slice does. -/
def fromisoformatChars (cs : List Char) : Option ParsedDateTime :=
  match cs with
  | y1 :: y2 :: y3 :: y4 :: c1 :: mo1 :: mo2 :: c2 :: da1 :: da2 :: rest =>
    if c1 == '-' && c2 == '-' then
      match parse4 y1 y2 y3 y4, parse2 mo1 mo2, parse2 da1 da2 with
      | some y, some mo, some da =>
        if 1 ≤ y && 1 ≤ mo && mo ≤ 12 && 1 ≤ da && da ≤ daysInMonth y mo then
          match rest with
          | [] => some ⟨⟨y, mo, da, 0, 0, 0, 0⟩, Option.none⟩
          | _ :: timeChars =>
            if timeChars.isEmpty then some ⟨⟨y, mo, da, 0, 0, 0, 0⟩, Option.none⟩
            else
              match parseTimeAndTz timeChars with
              | some ((h, mi, s, f), tz) =>
                if h ≤ 23 && mi ≤ 59 && s ≤ 59 then
                  some ⟨⟨y, mo, da, h, mi, s, f⟩, tz⟩
                else Option.none
              | Option.none => Option.none
        else Option.none
      | _, _, _ => Option.none
    else Option.none
  | _ => Option.none

/-- `datetime.fromisoformat` on a string; an ill-formed string raises
`ValueError`. -/
def fromisoformat (s : String) : Except PyError ParsedDateTime :=
  match fromisoformatChars s.toList with
  | some d => .ok d
  | Option.none => .error .valueError

/-- `datetime.fromisoformat` applied to an arbitrary Python value: a
`Priority` member is a `str` holding its serialized value (and never
parses as a date); a non-`str` argument raises `TypeError`. -/
def fromisoformatPy (v : PyVal) : Except PyError ParsedDateTime :=
  match v with
  | .str s => fromisoformat s
  | .priority p => fromisoformat p.value
  | _ => .error .typeError

/-- Python's `due < datetime.now()`: `datetime.now()` is naive, so a
naive parsed due date compares field by field, while an aware one
(timezone offset present) raises `TypeError` — naive and aware datetimes
cannot be ordered. -/
def ltNowPy (due : ParsedDateTime) (now : DateTime) : Except PyError Bool :=
  match due.tz with
  | Option.none => .ok (DateTime.lt due.dt now)
  | some _ => .error .typeError

/-- `Todo.is_overdue` from `models.py`, with the naive `datetime.now()`
passed in as `now`.  The `except (ValueError, TypeError)` clause catches
every exception the body can raise (`ValueError` from parsing,
`TypeError` from a non-string due date or from comparing an aware due
date with the naive now), so the result is a total Bool. -/
def Todo.is_overdue (t : Todo) (now : DateTime) : Bool :=
  if truthy t.completed || !truthy t.due_date then false
  else
    match fromisoformatPy t.due_date with
    | .error _ => false
    | .ok due =>
      match ltNowPy due now with
      | .ok b => b
      | .error _ => false

mutual

/-- Python `==` on the modelled values: `bool` is an `int` subclass
(`True == 1`), `Priority` is a `str` subclass comparing by value
(`Priority.LOW == "low"`), containers compare elementwise.  Python dict
equality ignores ordering; since every dict this code compares has its
keys in the fixed `to_dict` order, in-order comparison agrees with it. -/
def pyEq : PyVal → PyVal → Bool
  | .none, .none => true
  | .bool a, .bool b => a == b
  | .bool a, .int n => (if a then (1 : Int) else 0) == n
  | .int n, .bool a => n == (if a then (1 : Int) else 0)
  | .int m, .int n => m == n
  | .str s, .str t => s == t
  | .str s, .priority p => s == p.value
  | .priority p, .str s => p.value == s
  | .priority p, .priority q => p == q
  | .list xs, .list ys => pyEqList xs ys
  | .dict xs, .dict ys => pyEqDict xs ys
  | _, _ => false

/-- Elementwise Python `==` on lists. -/
def pyEqList : List PyVal → List PyVal → Bool
  | [], [] => true
  | a :: as, b :: bs => pyEq a b && pyEqList as bs
  | _, _ => false

/-- Entrywise Python `==` on dicts (see `pyEq` on ordering). -/
def pyEqDict : List (String × PyVal) → List (String × PyVal) → Bool
  | [], [] => true
  | (k, v) :: as, (l, w) :: bs => k == l && pyEq v w && pyEqDict as bs
  | _, _ => false

end

mutual

/-- What `json.dump` followed by `json.load` turns a value into: a
`Priority` member, being a `str` subclass, is serialized as its string
value; everything else round-trips structurally. -/
def dumpNorm : PyVal → PyVal
  | .priority p => .str p.value
  | .list xs => .list (dumpNormList xs)
  | .dict kvs => .dict (dumpNormDict kvs)
  | .none => .none
  | .bool b => .bool b
  | .int n => .int n
  | .str s => .str s

/-- `dumpNorm` over a list. -/
def dumpNormList : List PyVal → List PyVal
  | [] => []
  | x :: xs => dumpNorm x :: dumpNormList xs

/-- `dumpNorm` over dict entries. -/
def dumpNormDict : List (String × PyVal) → List (String × PyVal)
  | [] => []
  | (k, v) :: kvs => (k, dumpNorm v) :: dumpNormDict kvs

end

/-- Python `for item in data`: lists yield their elements, dicts their
keys, strings (and `Priority` members) their characters; other values
raise `TypeError` (not iterable). -/
def pyIter : PyVal → Except PyError (List PyVal)
  | .list xs => .ok xs
  | .dict kvs => .ok (kvs.map (fun kv => .str kv.1))
  | .str s => .ok (s.toList.map (fun c => .str (String.mk [c])))
  | .priority p => .ok (p.value.toList.map (fun c => .str (String.mk [c])))
  | _ => .error .typeError

/-- The content of one file: either text that `json.load` rejects with
`JSONDecodeError`, or the parsed JSON value. -/
inductive FileContent where
  | malformed
  | json (v : PyVal)

/-- The filesystem slice visible to the storage layer: a map from path
strings to contents, `Option.none` meaning the path does not exist. -/
def FS : Type := String → Option FileContent

/-- Writing a file (`open(path, "w")` plus a full dump). -/
def FS.write (p : String) (c : FileContent) (fs : FS) : FS :=
  fun q => if q = p then some c else fs q

/-- `Path.rename`: the destination takes the source's content
(overwriting the destination if it exists), the source ceases to exist. -/
def FS.rename (src dst : String) (fs : FS) : FS :=
  fun q => if q = dst then fs src else if q = src then Option.none else fs q

/-- The final path component of `p`. -/
def pathNameChars (p : String) : List Char :=
  (p.toList.reverse.takeWhile (fun c => c != '/')).reverse

/-- The directory part of `p`, up to and including the last slash. -/
def pathDirChars (p : String) : List Char :=
  (p.toList.reverse.dropWhile (fun c => c != '/')).reverse

/-- Length of `PurePath.suffix` of a file name: from the last dot, provided
that dot is neither the first nor the last character of the name. -/
def pathSuffixLen (name : List Char) : Nat :=
  match name.reverse.findIdx? (fun c => c == '.') with
  | some k =>
    if k == 0 then 0
    else if name.length - 1 - k == 0 then 0
    else k + 1
  | Option.none => 0

/-- `PurePath.with_suffix`: drop the existing suffix of the final
component, if any, and append the new suffix. -/
def withSuffix (p : String) (suf : String) : String :=
  String.mk (pathDirChars p ++
    (pathNameChars p).take ((pathNameChars p).length - pathSuffixLen (pathNameChars p)) ++
    suf.toList)

/-- The backup path `load` renames a corrupt file to:
`self.data_file.with_suffix(".json.bak")`. -/
def backupPath (p : String) : String := withSuffix p ".json.bak"

/-- One step of `[Todo.from_dict(item) for item in data]`: the first
exception aborts the comprehension. -/
def mapFromDict (fresh now : String) : List PyVal → Except PyError (List Todo)
  | [] => .ok []
  | x :: xs =>
    match Todo.from_dict fresh now x with
    | .error e => .error e
    | .ok t =>
      match mapFromDict fresh now xs with
      | .error e => .error e
      | .ok ts => .ok (t :: ts)

/-- The body of `load`'s `try`: iterate the parsed value and deserialize
each item. -/
def loadItems (fresh now : String) (v : PyVal) : Except PyError (List Todo) :=
  match pyIter v with
  | .error e => .error e
  | .ok items => mapFromDict fresh now items

/-- Which exceptions `load`'s `except (json.JSONDecodeError, KeyError,
ValueError)` clause catches (`JSONDecodeError` is itself a `ValueError`
subclass). -/
def caughtByLoad : PyError → Bool
  | .jsonDecodeError => true
  | .keyError => true
  | .valueError => true
  | _ => false

namespace TodoStorage

/-- `TodoStorage.load` over path `p`: absent file gives `[]`; a parse or
deserialization failure in the caught classes renames the file to the
`.json.bak` sibling and gives `[]`; any other exception propagates with
the filesystem untouched. -/
def load (fresh now p : String) (fs : FS) : Except PyError (List Todo) × FS :=
  match fs p with
  | Option.none => (.ok [], fs)
  | some .malformed => (.ok [], FS.rename p (backupPath p) fs)
  | some (.json v) =>
    match loadItems fresh now v with
    | .ok todos => (.ok todos, fs)
    | .error e =>
      if caughtByLoad e then (.ok [], FS.rename p (backupPath p) fs)
      else (.error e, fs)

/-- The file content `save` writes for a given collection. -/
def dumpTodos (todos : List Todo) : FileContent :=
  .json (dumpNorm (.list (todos.map (fun t => .dict t.to_dict))))

/-- `TodoStorage.save`: overwrite the file with the serialized collection. -/
def save (p : String) (todos : List Todo) (fs : FS) : FS :=
  FS.write p (dumpTodos todos) fs

/-- `TodoStorage.add`: load, append, save.  An exception from `load`
propagates. -/
def add (fresh now p : String) (todo : Todo) (fs : FS) : Except PyError Unit × FS :=
  match load fresh now p fs with
  | (.error e, fs1) => (.error e, fs1)
  | (.ok todos, fs1) => (.ok (), save p (todos ++ [todo]) fs1)

/-- `TodoStorage.get`: load and return the first item whose id compares
`==` to the given id. -/
def get (fresh now p : String) (todo_id : String) (fs : FS) :
    Except PyError (Option Todo) × FS :=
  match load fresh now p fs with
  | (.error e, fs1) => (.error e, fs1)
  | (.ok todos, fs1) => (.ok (todos.find? (fun t => pyEq t.id (.str todo_id))), fs1)

/-- Index of the first list element satisfying a predicate — the
`for i, t in enumerate(todos)` search pattern of `update` and `delete`. -/
def firstMatchIdx (q : Todo → Bool) : List Todo → Option Nat
  | [] => Option.none
  | t :: ts => if q t then some 0 else (firstMatchIdx q ts).map (· + 1)

/-- `TodoStorage.update`: replace the first item whose id matches and
save, returning `True`; if none matches, return `False` without writing. -/
def update (fresh now p : String) (todo : Todo) (fs : FS) : Except PyError Bool × FS :=
  match load fresh now p fs with
  | (.error e, fs1) => (.error e, fs1)
  | (.ok todos, fs1) =>
    match firstMatchIdx (fun t => pyEq t.id todo.id) todos with
    | some i => (.ok true, save p (todos.set i todo) fs1)
    | Option.none => (.ok false, fs1)

/-- `TodoStorage.delete`: remove the first item whose id matches and
save, returning `True`; if none matches, return `False` without writing. -/
def delete (fresh now p : String) (todo_id : String) (fs : FS) : Except PyError Bool × FS :=
  match load fresh now p fs with
  | (.error e, fs1) => (.error e, fs1)
  | (.ok todos, fs1) =>
    match firstMatchIdx (fun t => pyEq t.id (.str todo_id)) todos with
    | some i => (.ok true, save p (todos.eraseIdx i) fs1)
    | Option.none => (.ok false, fs1)

/-- `TodoStorage.clear_completed`: keep the items whose `completed` field
is falsy, save unconditionally, return how many items were dropped. -/
def clear_completed (fresh now p : String) (fs : FS) : Except PyError Nat × FS :=
  match load fresh now p fs with
  | (.error e, fs1) => (.error e, fs1)
  | (.ok todos, fs1) =>
    (.ok (todos.length - (todos.filter (fun t => !truthy t.completed)).length),
     save p (todos.filter (fun t => !truthy t.completed)) fs1)

end TodoStorage

/-! Concrete fixtures used by the closed instances below. -/

/-- A well-typed record with both optional fields absent. -/
def todo0 : Todo :=
  { id := .str "a1", title := .str "Buy milk", description := .str "",
    completed := .bool false, priority := .priority .medium, category := .str "",
    due_date := .none, created_at := .str "2024-01-01T00:00:00",
    completed_at := .none }

/-- A completed record. -/
def todoDone : Todo :=
  { id := .str "d1", title := .str "Done task", description := .str "",
    completed := .bool true, priority := .priority .high, category := .str "",
    due_date := .none, created_at := .str "2024-01-02T00:00:00",
    completed_at := .str "2024-01-03T00:00:00" }

/-- An open record with a due date. -/
def todoOpen : Todo :=
  { id := .str "o1", title := .str "Open task", description := .str "",
    completed := .bool false, priority := .priority .low, category := .str "home",
    due_date := .str "2000-01-01", created_at := .str "2024-01-02T00:00:00",
    completed_at := .none }

/-- First of two records sharing the id `"x"`. -/
def todoDupA : Todo :=
  { id := .str "x", title := .str "first", description := .str "",
    completed := .bool false, priority := .priority .medium, category := .str "",
    due_date := .none, created_at := .str "2024-01-04T00:00:00",
    completed_at := .none }

/-- Second of two records sharing the id `"x"`. -/
def todoDupB : Todo :=
  { id := .str "x", title := .str "second", description := .str "",
    completed := .bool false, priority := .priority .medium, category := .str "",
    due_date := .none, created_at := .str "2024-01-05T00:00:00",
    completed_at := .none }

/-- A replacement record carrying the id `"o1"`. -/
def todoRepl : Todo :=
  { id := .str "o1", title := .str "Open task, renamed", description := .str "",
    completed := .bool false, priority := .priority .high, category := .str "home",
    due_date := .none, created_at := .str "2024-01-02T00:00:00",
    completed_at := .none }

/-- An empty filesystem. -/
def fsEmpty : FS := fun _ => Option.none

/-- A replacement record carrying the shared id `"x"`. -/
def todoDupNew : Todo :=
  { id := .str "x", title := .str "replacement", description := .str "",
    completed := .bool false, priority := .priority .low, category := .str "",
    due_date := .none, created_at := .str "2024-01-06T00:00:00",
    completed_at := .none }

/-- Valid JSON in which one item has a key that is not a `Todo` field. -/
def corruptVal : PyVal := .list [.dict [("id", .str "a"), ("bogus", .int 1)]]

/-- Valid JSON in which one item has a priority string outside the
enumeration. -/
def badPriorityVal : PyVal := .list [.dict [("priority", .str "urgent")]]

/-- A filesystem whose items file holds valid JSON in which one item has a
key that is not a `Todo` field. -/
def fsCorruptItems : FS := fun q =>
  if q = "todos.json" then some (.json corruptVal) else Option.none

/-- A filesystem whose items file holds valid JSON in which one item has
an unrecognized priority string. -/
def fsBadPriority : FS := fun q =>
  if q = "todos.json" then some (.json badPriorityVal) else Option.none

/-- A filesystem whose items file, at a path with a `.txt` extension,
holds text that is not JSON. -/
def fsMalformedTxt : FS := fun q =>
  if q = "todos.txt" then some .malformed else Option.none

/-- A filesystem whose items file, at the default path, holds text that is
not JSON. -/
def fsMalformed : FS := fun q =>
  if q = "todos.json" then some .malformed else Option.none

/-- Two valid stored records, one completed and one open. -/
def fsPair : FS := TodoStorage.save "todos.json" [todoDone, todoOpen] fsEmpty

/-- Two valid stored records sharing one id. -/
def fsDup : FS := TodoStorage.save "todos.json" [todoDupA, todoDupB] fsEmpty

/-- An open record whose due date carries a UTC offset. -/
def todoTz : Todo :=
  { id := .str "t1", title := .str "Aware due date", description := .str "",
    completed := .bool false, priority := .priority .medium, category := .str "",
    due_date := .str "1999-01-01T00:00:00+00:00",
    created_at := .str "2024-01-01T00:00:00", completed_at := .none }

/-- What `fromisoformat` yields on that due date: midnight 1999-01-01,
aware with offset zero. -/
def dueTz : ParsedDateTime := ⟨⟨1999, 1, 1, 0, 0, 0, 0⟩, some 0⟩

/-- A reference current moment (naive, as `datetime.now()` returns). -/
def nowRef : DateTime := ⟨2024, 6, 1, 12, 0, 0, 0⟩

/-! Helper lemmas. -/

theorem isStrVal_shape (v : PyVal) (h : isStrVal v = true) : ∃ s, v = .str s := by
  cases v <;> first | exact ⟨_, rfl⟩ | simp [isStrVal] at h

theorem isBoolVal_shape (v : PyVal) (h : isBoolVal v = true) : ∃ b, v = .bool b := by
  cases v <;> first | exact ⟨_, rfl⟩ | simp [isBoolVal] at h

theorem isPriorityVal_shape (v : PyVal) (h : isPriorityVal v = true) :
    ∃ p, v = .priority p := by
  cases v <;> first | exact ⟨_, rfl⟩ | simp [isPriorityVal] at h

theorem isOptStrVal_shape (v : PyVal) (h : isOptStrVal v = true) :
    v = .none ∨ ∃ s, v = .str s := by
  cases v <;>
    first
    | exact Or.inl rfl
    | exact Or.inr ⟨_, rfl⟩
    | simp [isOptStrVal] at h

/-- Deserialization inverts serialization on well-typed records. -/
theorem from_to_dict_roundtrip (fresh now : String) (t : Todo) (h : t.valid = true) :
    Todo.from_dict fresh now (.dict t.to_dict) = .ok t := by
  obtain ⟨i, ti, de, co, pr, ca, du, cr, cm⟩ := t
  simp only [Todo.valid, Bool.and_eq_true] at h
  obtain ⟨⟨⟨⟨⟨⟨⟨⟨h1, h2⟩, h3⟩, h4⟩, h5⟩, h6⟩, h7⟩, h8⟩, h9⟩ := h
  obtain ⟨s1, rfl⟩ := isStrVal_shape _ h1
  obtain ⟨s2, rfl⟩ := isStrVal_shape _ h2
  obtain ⟨s3, rfl⟩ := isStrVal_shape _ h3
  obtain ⟨b4, rfl⟩ := isBoolVal_shape _ h4
  obtain ⟨p5, rfl⟩ := isPriorityVal_shape _ h5
  obtain ⟨s6, rfl⟩ := isStrVal_shape _ h6
  obtain ⟨s8, rfl⟩ := isStrVal_shape _ h8
  rcases isOptStrVal_shape _ h7 with rfl | ⟨s7, rfl⟩ <;>
    rcases isOptStrVal_shape _ h9 with rfl | ⟨s9, rfl⟩ <;>
    cases p5 <;> rfl

/-- `json.dump` + `json.load` is the identity on a serialized well-typed
record. -/
theorem dumpNorm_to_dict (t : Todo) (h : t.valid = true) :
    dumpNorm (.dict t.to_dict) = .dict t.to_dict := by
  obtain ⟨i, ti, de, co, pr, ca, du, cr, cm⟩ := t
  simp only [Todo.valid, Bool.and_eq_true] at h
  obtain ⟨⟨⟨⟨⟨⟨⟨⟨h1, h2⟩, h3⟩, h4⟩, h5⟩, h6⟩, h7⟩, h8⟩, h9⟩ := h
  obtain ⟨s1, rfl⟩ := isStrVal_shape _ h1
  obtain ⟨s2, rfl⟩ := isStrVal_shape _ h2
  obtain ⟨s3, rfl⟩ := isStrVal_shape _ h3
  obtain ⟨b4, rfl⟩ := isBoolVal_shape _ h4
  obtain ⟨p5, rfl⟩ := isPriorityVal_shape _ h5
  obtain ⟨s6, rfl⟩ := isStrVal_shape _ h6
  obtain ⟨s8, rfl⟩ := isStrVal_shape _ h8
  rcases isOptStrVal_shape _ h7 with rfl | ⟨s7, rfl⟩ <;>
    rcases isOptStrVal_shape _ h9 with rfl | ⟨s9, rfl⟩ <;>
    cases p5 <;> rfl

/-- The item comprehension succeeds on a serialized collection of
well-typed records and returns it unchanged. -/
theorem mapFromDict_dump (fresh now : String) (todos : List Todo)
    (h : todos.all Todo.valid = true) :
    mapFromDict fresh now (dumpNormList (todos.map (fun t => .dict t.to_dict))) =
      .ok todos := by
  induction todos with
  | nil => rfl
  | cons t ts ih =>
    rw [List.all_cons, Bool.and_eq_true] at h
    simp only [List.map_cons, dumpNormList, mapFromDict, dumpNorm_to_dict t h.1,
      from_to_dict_roundtrip fresh now t h.1, ih h.2]

/-- `load` on a file that `save` wrote for a well-typed collection
returns that collection and leaves the filesystem unchanged. -/
theorem load_dump (fresh now p : String) (todos : List Todo) (fs : FS)
    (hv : todos.all Todo.valid = true)
    (hfs : fs p = some (TodoStorage.dumpTodos todos)) :
    TodoStorage.load fresh now p fs = (.ok todos, fs) := by
  simp only [TodoStorage.load, hfs, TodoStorage.dumpTodos, dumpNorm, loadItems, pyIter,
    mapFromDict_dump fresh now todos hv]

/-- If no element before index `i` matches and the element at `i` does,
the `enumerate` search stops at `i`. -/
theorem firstMatchIdx_take (q : Todo → Bool) (l : List Todo) (i : Nat) (x : Todo)
    (hx : l.get? i = some x) (hqx : q x = true)
    (hpre : (l.take i).all (fun t => !q t) = true) :
    TodoStorage.firstMatchIdx q l = some i := by
  induction l generalizing i with
  | nil => simp [List.get?] at hx
  | cons a as ih =>
    cases i with
    | zero =>
      rw [List.get?] at hx
      injection hx with hx
      subst hx
      simp [TodoStorage.firstMatchIdx, hqx]
    | succ n =>
      rw [List.take_succ_cons, List.all_cons, Bool.and_eq_true] at hpre
      have ha : q a = false := by
        rcases hpre with ⟨hba, _⟩
        cases hqa : q a
        · rfl
        · rw [hqa] at hba; simp at hba
      rw [List.get?] at hx
      unfold TodoStorage.firstMatchIdx
      rw [ha]
      simp only [Bool.false_eq_true, if_false]
      rw [ih n hx hpre.2]
      rfl

/-- If no element matches, the `enumerate` search finds nothing. -/
theorem firstMatchIdx_none (q : Todo → Bool) (l : List Todo)
    (h : l.all (fun t => !q t) = true) :
    TodoStorage.firstMatchIdx q l = Option.none := by
  induction l with
  | nil => rfl
  | cons a as ih =>
    rw [List.all_cons, Bool.and_eq_true] at h
    have ha : q a = false := by
      rcases h with ⟨hba, _⟩
      cases hqa : q a
      · rfl
      · rw [hqa] at hba; simp at hba
    unfold TodoStorage.firstMatchIdx
    rw [ha]
    simp only [Bool.false_eq_true, if_false]
    rw [ih h.2]
    rfl

/-- `find?` returns the element at the first matching index. -/
theorem find?_take (q : Todo → Bool) (l : List Todo) (i : Nat) (x : Todo)
    (hx : l.get? i = some x) (hqx : q x = true)
    (hpre : (l.take i).all (fun t => !q t) = true) :
    l.find? q = some x := by
  induction l generalizing i with
  | nil => simp [List.get?] at hx
  | cons a as ih =>
    cases i with
    | zero =>
      rw [List.get?] at hx
      injection hx with hx
      subst hx
      exact List.find?_cons_of_pos _ hqx
    | succ n =>
      rw [List.take_succ_cons, List.all_cons, Bool.and_eq_true] at hpre
      have ha : q a = false := by
        rcases hpre with ⟨hba, _⟩
        cases hqa : q a
        · rfl
        · rw [hqa] at hba; simp at hba
      rw [List.get?] at hx
      rw [List.find?_cons_of_neg _ (by simp [ha])]
      exact ih n hx hpre.2

/-- Dropping the elements that fail `cp` drops exactly `countP cp` many. -/
theorem length_sub_filter_not (cp : Todo → Bool) (l : List Todo) :
    l.length - (l.filter (fun a => !cp a)).length = l.countP cp := by
  induction l with
  | nil => rfl
  | cons a as ih =>
    rw [List.filter_cons, List.countP_cons, List.length_cons]
    cases ha : cp a
    · simp only [Bool.not_false, if_true, List.length_cons, Bool.false_eq_true, if_false,
        Nat.add_zero, Nat.succ_sub_succ]
      exact ih
    · simp only [Bool.not_true, Bool.false_eq_true, if_false, if_true]
      rw [← ih]
      have hle : (as.filter (fun a => !cp a)).length ≤ as.length :=
        List.length_filter_le _ _
      omega

/-- A filtered list contains no element failing the filter. -/
theorem countP_filter_not (cp : Todo → Bool) (l : List Todo) :
    (l.filter (fun a => !cp a)).countP cp = 0 := by
  rw [List.countP_filter]
  simp

/-- `dictSet` preserves a key predicate that holds for the inserted key. -/
theorem dictSet_all_keys (k : String) (v : PyVal) (kvs : List (String × PyVal))
    (P : String → Bool) (hk : P k = true)
    (h : kvs.all (fun kv => P kv.1) = true) :
    (dictSet k v kvs).all (fun kv => P kv.1) = true := by
  induction kvs with
  | nil => simp [dictSet, hk]
  | cons a as ih =>
    rw [List.all_cons, Bool.and_eq_true] at h
    obtain ⟨a1, a2⟩ := a
    unfold dictSet
    cases hak : a1 == k
    · simp only [Bool.false_eq_true, if_false, List.all_cons, Bool.and_eq_true]
      exact ⟨h.1, ih h.2⟩
    · simp only [if_true, List.all_cons, Bool.and_eq_true]
      exact ⟨h.1, h.2⟩

/-- `dictSet` at one key does not change lookups at another. -/
theorem dictLookup_dictSet_ne (k f : String) (v : PyVal)
    (kvs : List (String × PyVal)) (hne : f ≠ k) :
    dictLookup f (dictSet k v kvs) = dictLookup f kvs := by
  induction kvs with
  | nil =>
    simp only [dictSet, dictLookup]
    rw [show (k == f) = false from beq_eq_false_iff_ne.mpr (Ne.symm hne)]
    simp [dictLookup]
  | cons a as ih =>
    obtain ⟨a1, a2⟩ := a
    simp only [dictSet]
    cases hak : a1 == k
    · simp only [Bool.false_eq_true, if_false, dictLookup]
      cases haf : a1 == f
      · simp only [Bool.false_eq_true, if_false]
        exact ih
      · simp only [if_true]
    · simp only [if_true, dictLookup]
      have haf : (a1 == f) = false := by
        have h1 : a1 = k := eq_of_beq hak
        subst h1
        exact beq_eq_false_iff_ne.mpr (fun h => hne h.symm)
      rw [haf]
      simp only [Bool.false_eq_true, if_false]

/-- `cls(**kvs)` succeeds when every key is a field name, and each absent
field takes its dataclass default. -/
theorem applyKwargs_defaults (fresh now : String) (kvs : List (String × PyVal))
    (hkeys : kvs.all (fun kv => todoFields.contains kv.1) = true) :
    ∃ t, Todo.applyKwargs fresh now kvs = .ok t ∧
      (dictLookup "id" kvs = Option.none → t.id = .str fresh) ∧
      (dictLookup "title" kvs = Option.none → t.title = .str "") ∧
      (dictLookup "description" kvs = Option.none → t.description = .str "") ∧
      (dictLookup "completed" kvs = Option.none → t.completed = .bool false) ∧
      (dictLookup "priority" kvs = Option.none → t.priority = .priority .medium) ∧
      (dictLookup "category" kvs = Option.none → t.category = .str "") ∧
      (dictLookup "due_date" kvs = Option.none → t.due_date = .none) ∧
      (dictLookup "created_at" kvs = Option.none → t.created_at = .str now) ∧
      (dictLookup "completed_at" kvs = Option.none → t.completed_at = .none) := by
  refine ⟨⟨(dictLookup "id" kvs).getD (.str fresh),
    (dictLookup "title" kvs).getD (.str ""),
    (dictLookup "description" kvs).getD (.str ""),
    (dictLookup "completed" kvs).getD (.bool false),
    (dictLookup "priority" kvs).getD (.priority .medium),
    (dictLookup "category" kvs).getD (.str ""),
    (dictLookup "due_date" kvs).getD .none,
    (dictLookup "created_at" kvs).getD (.str now),
    (dictLookup "completed_at" kvs).getD .none⟩, ?_, ?_, ?_, ?_, ?_, ?_, ?_, ?_, ?_, ?_⟩
  · simp only [Todo.applyKwargs, hkeys, if_true]
  all_goals intro h
  all_goals simp only [h, Option.getD_none]

/-! Claim theorems. -/

/-- C2: for every valid `Todo` record (priority one of the three
`Priority` values, optional fields possibly absent),
`Todo.from_dict (x.to_dict())` equals `x` field for field, with absent
optional fields (`due_date`, `completed_at` as `None`) remaining absent
after the round trip. -/
theorem todo_serialization_roundtrip (fresh now : String) (t : Todo)
    (h : t.valid = true) :
    Todo.from_dict fresh now (.dict t.to_dict) = .ok t :=
  from_to_dict_roundtrip fresh now t h

theorem todo_serialization_roundtrip_witness :
    todo0.valid = true ∧
      Todo.from_dict "fresh-id" "2024-02-01T00:00:00" (.dict todo0.to_dict) = .ok todo0 :=
  ⟨rfl, todo_serialization_roundtrip "fresh-id" "2024-02-01T00:00:00" todo0 rfl⟩

/-- C3: for every input mapping whose `"priority"` key holds a string
outside `{"low", "medium", "high"}`, `Todo.from_dict` fails with the
invalid-priority error (`ValueError` raised by `Priority(s)`), which
propagates to the caller: no record is returned and the priority is not
defaulted. -/
theorem from_dict_unrecognized_priority_raises (fresh now : String)
    (kvs : List (String × PyVal)) (s : String)
    (hlook : dictLookup "priority" kvs = some (.str s))
    (h1 : s ≠ "low") (h2 : s ≠ "medium") (h3 : s ≠ "high") :
    Todo.from_dict fresh now (.dict kvs) = .error .valueError := by
  have hof : Priority.ofString? s = Option.none := by
    simp only [Priority.ofString?]
    rw [show (s == "low") = false from beq_eq_false_iff_ne.mpr h1,
        show (s == "medium") = false from beq_eq_false_iff_ne.mpr h2,
        show (s == "high") = false from beq_eq_false_iff_ne.mpr h3]
    simp
  simp only [Todo.from_dict, hlook, hof]

theorem from_dict_unrecognized_priority_raises_witness :
    dictLookup "priority" [("priority", PyVal.str "urgent")] = some (.str "urgent") ∧
      Todo.from_dict "f" "n" (.dict [("priority", .str "urgent")]) = .error .valueError :=
  ⟨rfl, from_dict_unrecognized_priority_raises "f" "n" _ "urgent" rfl
    (by decide) (by decide) (by decide)⟩

/-- C8: for every path at which no items file exists, `TodoStorage.load`
returns an empty collection, never an error, and does not create the file
as a side effect of the load call alone. -/
theorem load_absent_file_empty (fresh now p : String) (fs : FS)
    (h : fs p = Option.none) :
    TodoStorage.load fresh now p fs = (.ok [], fs) ∧
      (TodoStorage.load fresh now p fs).2 p = Option.none := by
  have h1 : TodoStorage.load fresh now p fs = (.ok [], fs) := by
    simp only [TodoStorage.load, h]
  exact ⟨h1, by rw [h1]; exact h⟩

theorem load_absent_file_empty_witness :
    fsEmpty "todos.json" = Option.none ∧
      (TodoStorage.load "f" "n" "todos.json" fsEmpty = (.ok [], fsEmpty) ∧
       (TodoStorage.load "f" "n" "todos.json" fsEmpty).2 "todos.json" = Option.none) :=
  ⟨rfl, load_absent_file_empty "f" "n" "todos.json" fsEmpty rfl⟩

/-- C10: `TodoStorage.clear_completed` always rewrites the items file,
even when it removes zero items: on a path with no existing file it
creates the file containing an empty collection and returns 0, while
`update` and `delete` on the same path return failure and leave the file
untouched. -/
theorem clear_completed_always_writes (fresh now p : String) (u : Todo)
    (id0 : String) (fs : FS) (h : fs p = Option.none) :
    TodoStorage.clear_completed fresh now p fs = (.ok 0, TodoStorage.save p [] fs) ∧
      (TodoStorage.clear_completed fresh now p fs).2 p = some (.json (.list [])) ∧
      TodoStorage.update fresh now p u fs = (.ok false, fs) ∧
      TodoStorage.delete fresh now p id0 fs = (.ok false, fs) := by
  have hload : TodoStorage.load fresh now p fs = (.ok [], fs) := by
    simp only [TodoStorage.load, h]
  have hcc : TodoStorage.clear_completed fresh now p fs = (.ok 0, TodoStorage.save p [] fs) := by
    simp only [TodoStorage.clear_completed, hload, List.filter_nil, List.length_nil,
      Nat.sub_self]
  refine ⟨hcc, ?_, ?_, ?_⟩
  · rw [hcc]
    show TodoStorage.save p [] fs p = _
    simp [TodoStorage.save, FS.write, TodoStorage.dumpTodos, dumpNorm, dumpNormList]
  · simp only [TodoStorage.update, hload, TodoStorage.firstMatchIdx]
  · simp only [TodoStorage.delete, hload, TodoStorage.firstMatchIdx]

theorem clear_completed_always_writes_witness :
    fsEmpty "todos.json" = Option.none ∧
      (TodoStorage.clear_completed "f" "n" "todos.json" fsEmpty =
         (.ok 0, TodoStorage.save "todos.json" [] fsEmpty) ∧
       (TodoStorage.clear_completed "f" "n" "todos.json" fsEmpty).2 "todos.json" =
         some (.json (.list [])) ∧
       TodoStorage.update "f" "n" "todos.json" todo0 fsEmpty = (.ok false, fsEmpty) ∧
       TodoStorage.delete "f" "n" "todos.json" "zz" fsEmpty = (.ok false, fsEmpty)) :=
  ⟨rfl, clear_completed_always_writes "f" "n" "todos.json" todo0 "zz" fsEmpty rfl⟩

/-- C1 counterexample: valid JSON whose item carries an unknown key makes
`load` raise `TypeError` (no backup, no empty result), and for a data file
whose extension is not `.json` the backup path replaces the extension with
`.json.bak` instead of appending `.bak` to it. -/
theorem load_corruption_claim_counterexample :
    ((TodoStorage.load "f" "n" "todos.json" fsCorruptItems).1 = .error .typeError) ∧
      ((TodoStorage.load "f" "n" "todos.json" fsCorruptItems).2 "todos.json" =
        some (.json corruptVal)) ∧
      (backupPath "todos.txt" = "todos.json.bak") ∧
      ((TodoStorage.load "f" "n" "todos.txt" fsMalformedTxt).2 "todos.txt.bak" =
        Option.none) ∧
      ((TodoStorage.load "f" "n" "todos.txt" fsMalformedTxt).2 "todos.json.bak" =
        some .malformed) :=
  ⟨rfl, rfl, by decide, rfl, rfl⟩

/-- C1 amended: if the items file exists and parsing or item
deserialization raises a `JSONDecodeError`, `KeyError` or `ValueError`,
`load` renames the file to its `with_suffix(".json.bak")` sibling
(overwriting any prior backup) and returns an empty collection without
raising; a deserialization failure outside those classes propagates to the
caller with the file left in place. -/
theorem load_corruption_recovery (fresh now p : String) (fs : FS) (v : PyVal)
    (e : PyError) :
    (fs p = some .malformed →
      TodoStorage.load fresh now p fs = (.ok [], FS.rename p (backupPath p) fs)) ∧
      (fs p = some (.json v) → loadItems fresh now v = .error e →
        caughtByLoad e = true →
        TodoStorage.load fresh now p fs = (.ok [], FS.rename p (backupPath p) fs)) ∧
      (fs p = some (.json v) → loadItems fresh now v = .error e →
        caughtByLoad e = false →
        TodoStorage.load fresh now p fs = (.error e, fs)) := by
  refine ⟨fun h => ?_, fun h h2 h3 => ?_, fun h h2 h3 => ?_⟩
  · simp only [TodoStorage.load, h]
  · simp only [TodoStorage.load, h, h2, h3, if_true]
  · simp only [TodoStorage.load, h, h2, h3, Bool.false_eq_true, if_false]

theorem load_corruption_recovery_witness :
    (fsMalformed "todos.json" = some FileContent.malformed ∧
      TodoStorage.load "f" "n" "todos.json" fsMalformed =
        (.ok [], FS.rename "todos.json" (backupPath "todos.json") fsMalformed)) ∧
      (fsBadPriority "todos.json" = some (.json badPriorityVal) ∧
        loadItems "f" "n" badPriorityVal = .error .valueError ∧
        caughtByLoad PyError.valueError = true ∧
        TodoStorage.load "f" "n" "todos.json" fsBadPriority =
          (.ok [], FS.rename "todos.json" (backupPath "todos.json") fsBadPriority)) ∧
      (fsCorruptItems "todos.json" = some (.json corruptVal) ∧
        loadItems "f" "n" corruptVal = .error .typeError ∧
        caughtByLoad PyError.typeError = false ∧
        TodoStorage.load "f" "n" "todos.json" fsCorruptItems =
          (.error .typeError, fsCorruptItems)) :=
  ⟨⟨rfl, (load_corruption_recovery "f" "n" "todos.json" fsMalformed (.list []) .typeError).1 rfl⟩,
   ⟨rfl, rfl, rfl,
    (load_corruption_recovery "f" "n" "todos.json" fsBadPriority badPriorityVal .valueError).2.1
      rfl rfl rfl⟩,
   ⟨rfl, rfl, rfl,
    (load_corruption_recovery "f" "n" "todos.json" fsCorruptItems corruptVal .typeError).2.2
      rfl rfl rfl⟩⟩

/-- C4 counterexample: a mapping containing a key that is not a `Todo`
field makes `from_dict` fail with `TypeError` instead of succeeding with
defaults. -/
theorem from_dict_unknown_key_counterexample :
    Todo.from_dict "f" "n" (.dict [("frobnicate", .int 1)]) = .error .typeError := rfl

/-- C4 amended: when every key of the mapping is a `Todo` field name and
the `"priority"` entry (if any) is acceptable, `from_dict` succeeds and
every optional field missing from the mapping takes its default value;
a mapping containing an unknown key instead fails with `TypeError`. -/
theorem from_dict_missing_fields_default (fresh now : String)
    (kvs : List (String × PyVal))
    (hkeys : kvs.all (fun kv => todoFields.contains kv.1) = true)
    (hpr : priorityOk kvs = true) :
    ∃ t, Todo.from_dict fresh now (.dict kvs) = .ok t ∧
      (dictLookup "id" kvs = Option.none → t.id = .str fresh) ∧
      (dictLookup "title" kvs = Option.none → t.title = .str "") ∧
      (dictLookup "description" kvs = Option.none → t.description = .str "") ∧
      (dictLookup "completed" kvs = Option.none → t.completed = .bool false) ∧
      (dictLookup "priority" kvs = Option.none → t.priority = .priority .medium) ∧
      (dictLookup "category" kvs = Option.none → t.category = .str "") ∧
      (dictLookup "due_date" kvs = Option.none → t.due_date = .none) ∧
      (dictLookup "created_at" kvs = Option.none → t.created_at = .str now) ∧
      (dictLookup "completed_at" kvs = Option.none → t.completed_at = .none) := by
  cases hlook : dictLookup "priority" kvs with
  | none =>
    obtain ⟨t, ht, c1, c2, c3, c4, c5, c6, c7, c8, c9⟩ :=
      applyKwargs_defaults fresh now kvs hkeys
    exact ⟨t, by simp only [Todo.from_dict, hlook, ht], c1, c2, c3, c4,
      fun _ => c5 hlook, c6, c7, c8, c9⟩
  | some v =>
    cases v with
    | str s =>
      simp only [priorityOk, hlook] at hpr
      obtain ⟨pr, hof⟩ := Option.isSome_iff_exists.mp hpr
      have hkeys2 :
          (dictSet "priority" (.priority pr) kvs).all
            (fun kv => todoFields.contains kv.1) = true :=
        dictSet_all_keys "priority" (.priority pr) kvs _ (by decide) hkeys
      obtain ⟨t, ht, c1, c2, c3, c4, _c5, c6, c7, c8, c9⟩ :=
        applyKwargs_defaults fresh now (dictSet "priority" (.priority pr) kvs) hkeys2
      refine ⟨t, by simp only [Todo.from_dict, hlook, hof, ht], ?_, ?_, ?_, ?_,
        fun h => absurd h (Option.some_ne_none _), ?_, ?_, ?_, ?_⟩
      · exact fun h => c1 (by rw [dictLookup_dictSet_ne _ _ _ _ (by decide)]; exact h)
      · exact fun h => c2 (by rw [dictLookup_dictSet_ne _ _ _ _ (by decide)]; exact h)
      · exact fun h => c3 (by rw [dictLookup_dictSet_ne _ _ _ _ (by decide)]; exact h)
      · exact fun h => c4 (by rw [dictLookup_dictSet_ne _ _ _ _ (by decide)]; exact h)
      · exact fun h => c6 (by rw [dictLookup_dictSet_ne _ _ _ _ (by decide)]; exact h)
      · exact fun h => c7 (by rw [dictLookup_dictSet_ne _ _ _ _ (by decide)]; exact h)
      · exact fun h => c8 (by rw [dictLookup_dictSet_ne _ _ _ _ (by decide)]; exact h)
      · exact fun h => c9 (by rw [dictLookup_dictSet_ne _ _ _ _ (by decide)]; exact h)
    | priority p0 =>
      have hkeys2 :
          (dictSet "priority" (.priority p0) kvs).all
            (fun kv => todoFields.contains kv.1) = true :=
        dictSet_all_keys "priority" (.priority p0) kvs _ (by decide) hkeys
      obtain ⟨t, ht, c1, c2, c3, c4, _c5, c6, c7, c8, c9⟩ :=
        applyKwargs_defaults fresh now (dictSet "priority" (.priority p0) kvs) hkeys2
      refine ⟨t, by simp only [Todo.from_dict, hlook, ht], ?_, ?_, ?_, ?_,
        fun h => absurd h (Option.some_ne_none _), ?_, ?_, ?_, ?_⟩
      · exact fun h => c1 (by rw [dictLookup_dictSet_ne _ _ _ _ (by decide)]; exact h)
      · exact fun h => c2 (by rw [dictLookup_dictSet_ne _ _ _ _ (by decide)]; exact h)
      · exact fun h => c3 (by rw [dictLookup_dictSet_ne _ _ _ _ (by decide)]; exact h)
      · exact fun h => c4 (by rw [dictLookup_dictSet_ne _ _ _ _ (by decide)]; exact h)
      · exact fun h => c6 (by rw [dictLookup_dictSet_ne _ _ _ _ (by decide)]; exact h)
      · exact fun h => c7 (by rw [dictLookup_dictSet_ne _ _ _ _ (by decide)]; exact h)
      · exact fun h => c8 (by rw [dictLookup_dictSet_ne _ _ _ _ (by decide)]; exact h)
      · exact fun h => c9 (by rw [dictLookup_dictSet_ne _ _ _ _ (by decide)]; exact h)
    | none =>
      obtain ⟨t, ht, c1, c2, c3, c4, _c5, c6, c7, c8, c9⟩ :=
        applyKwargs_defaults fresh now kvs hkeys
      exact ⟨t, by simp only [Todo.from_dict, hlook, ht], c1, c2, c3, c4,
        fun h => absurd h (Option.some_ne_none _), c6, c7, c8, c9⟩
    | bool b =>
      obtain ⟨t, ht, c1, c2, c3, c4, _c5, c6, c7, c8, c9⟩ :=
        applyKwargs_defaults fresh now kvs hkeys
      exact ⟨t, by simp only [Todo.from_dict, hlook, ht], c1, c2, c3, c4,
        fun h => absurd h (Option.some_ne_none _), c6, c7, c8, c9⟩
    | int n =>
      obtain ⟨t, ht, c1, c2, c3, c4, _c5, c6, c7, c8, c9⟩ :=
        applyKwargs_defaults fresh now kvs hkeys
      exact ⟨t, by simp only [Todo.from_dict, hlook, ht], c1, c2, c3, c4,
        fun h => absurd h (Option.some_ne_none _), c6, c7, c8, c9⟩
    | list xs =>
      obtain ⟨t, ht, c1, c2, c3, c4, _c5, c6, c7, c8, c9⟩ :=
        applyKwargs_defaults fresh now kvs hkeys
      exact ⟨t, by simp only [Todo.from_dict, hlook, ht], c1, c2, c3, c4,
        fun h => absurd h (Option.some_ne_none _), c6, c7, c8, c9⟩
    | dict kvs2 =>
      obtain ⟨t, ht, c1, c2, c3, c4, _c5, c6, c7, c8, c9⟩ :=
        applyKwargs_defaults fresh now kvs hkeys
      exact ⟨t, by simp only [Todo.from_dict, hlook, ht], c1, c2, c3, c4,
        fun h => absurd h (Option.some_ne_none _), c6, c7, c8, c9⟩

theorem from_dict_missing_fields_default_witness :
    ([("title", PyVal.str "partial")].all (fun kv => todoFields.contains kv.1) = true) ∧
      (priorityOk [("title", PyVal.str "partial")] = true) ∧
      (∃ t, Todo.from_dict "f" "n" (.dict [("title", .str "partial")]) = .ok t ∧
        (dictLookup "id" [("title", PyVal.str "partial")] = Option.none → t.id = .str "f") ∧
        (dictLookup "title" [("title", PyVal.str "partial")] = Option.none → t.title = .str "") ∧
        (dictLookup "description" [("title", PyVal.str "partial")] = Option.none →
          t.description = .str "") ∧
        (dictLookup "completed" [("title", PyVal.str "partial")] = Option.none →
          t.completed = .bool false) ∧
        (dictLookup "priority" [("title", PyVal.str "partial")] = Option.none →
          t.priority = .priority .medium) ∧
        (dictLookup "category" [("title", PyVal.str "partial")] = Option.none →
          t.category = .str "") ∧
        (dictLookup "due_date" [("title", PyVal.str "partial")] = Option.none →
          t.due_date = .none) ∧
        (dictLookup "created_at" [("title", PyVal.str "partial")] = Option.none →
          t.created_at = .str "n") ∧
        (dictLookup "completed_at" [("title", PyVal.str "partial")] = Option.none →
          t.completed_at = .none)) :=
  ⟨rfl, rfl, from_dict_missing_fields_default "f" "n" [("title", PyVal.str "partial")] rfl rfl⟩

/-- C6: with the items file holding a well-typed collection in which
index `i` carries the only id matching `u.id`, `update u` replaces the
item at index `i`, leaves all other indices unchanged, keeps the length,
saves the result and returns success; when no stored id matches, it
returns failure and does not write.  (With duplicate ids, only the first
match is replaced — see the duplicate-id theorem.) -/
theorem update_replaces_matching_index (fresh now p : String) (u : Todo)
    (todos : List Todo) (fs : FS)
    (hv : todos.all Todo.valid = true)
    (hfs : fs p = some (TodoStorage.dumpTodos todos)) :
    (∀ i ti, todos.get? i = some ti → pyEq ti.id u.id = true →
      (todos.take i).all (fun t => !pyEq t.id u.id) = true →
      (todos.drop (i + 1)).all (fun t => !pyEq t.id u.id) = true →
      (TodoStorage.update fresh now p u fs =
          (.ok true, TodoStorage.save p (todos.set i u) fs) ∧
        (todos.set i u).length = todos.length ∧
        (todos.set i u).get? i = some u ∧
        ∀ j, j ≠ i → (todos.set i u).get? j = todos.get? j)) ∧
      (todos.all (fun t => !pyEq t.id u.id) = true →
        TodoStorage.update fresh now p u fs = (.ok false, fs)) := by
  have hload := load_dump fresh now p todos fs hv hfs
  constructor
  · intro i ti hti hmi hpre _hpost
    have hidx := firstMatchIdx_take (fun t => pyEq t.id u.id) todos i ti hti hmi hpre
    have hlen : i < todos.length := by
      rcases List.get?_eq_some.mp hti with ⟨hl, _⟩
      exact hl
    refine ⟨?_, List.length_set todos i u, List.get?_set_eq_of_lt u hlen, ?_⟩
    · simp only [TodoStorage.update, hload, hidx]
    · intro j hj
      exact List.get?_set_ne u todos (Ne.symm hj)
  · intro hall
    have hidx := firstMatchIdx_none (fun t => pyEq t.id u.id) todos hall
    simp only [TodoStorage.update, hload, hidx]

theorem update_replaces_matching_index_witness :
    ([todoDone, todoOpen].all Todo.valid = true) ∧
      (fsPair "todos.json" = some (TodoStorage.dumpTodos [todoDone, todoOpen])) ∧
      ([todoDone, todoOpen].get? 1 = some todoOpen) ∧
      (pyEq todoOpen.id todoRepl.id = true) ∧
      (([todoDone, todoOpen].take 1).all (fun t => !pyEq t.id todoRepl.id) = true) ∧
      (([todoDone, todoOpen].drop 2).all (fun t => !pyEq t.id todoRepl.id) = true) ∧
      (TodoStorage.update "f" "n" "todos.json" todoRepl fsPair =
          (.ok true, TodoStorage.save "todos.json" ([todoDone, todoOpen].set 1 todoRepl) fsPair) ∧
        ([todoDone, todoOpen].set 1 todoRepl).length = [todoDone, todoOpen].length ∧
        ([todoDone, todoOpen].set 1 todoRepl).get? 1 = some todoRepl ∧
        ∀ j, j ≠ 1 →
          ([todoDone, todoOpen].set 1 todoRepl).get? j = [todoDone, todoOpen].get? j) :=
  ⟨rfl, rfl, rfl, rfl, rfl, rfl,
   (update_replaces_matching_index "f" "n" "todos.json" todoRepl [todoDone, todoOpen]
     fsPair rfl rfl).1 1 todoOpen rfl rfl rfl rfl⟩

/-- C7: `clear_completed` on a stored well-typed collection retains
exactly the items whose completed field is falsy (in their original
order), persists that collection, and returns the number of completed
items before the call; afterwards the retained collection contains zero
completed items. -/
theorem clear_completed_count_invariant (fresh now p : String)
    (todos : List Todo) (fs : FS)
    (hv : todos.all Todo.valid = true)
    (hfs : fs p = some (TodoStorage.dumpTodos todos)) :
    TodoStorage.clear_completed fresh now p fs =
      (.ok (todos.countP (fun t => truthy t.completed)),
       TodoStorage.save p (todos.filter (fun t => !truthy t.completed)) fs) ∧
      (todos.filter (fun t => !truthy t.completed)).countP
        (fun t => truthy t.completed) = 0 := by
  have hload := load_dump fresh now p todos fs hv hfs
  constructor
  · simp only [TodoStorage.clear_completed, hload, length_sub_filter_not]
  · exact countP_filter_not _ todos

theorem clear_completed_count_invariant_witness :
    ([todoDone, todoOpen].all Todo.valid = true) ∧
      (fsPair "todos.json" = some (TodoStorage.dumpTodos [todoDone, todoOpen])) ∧
      (TodoStorage.clear_completed "f" "n" "todos.json" fsPair =
        (.ok ([todoDone, todoOpen].countP (fun t => truthy t.completed)),
         TodoStorage.save "todos.json"
           ([todoDone, todoOpen].filter (fun t => !truthy t.completed)) fsPair) ∧
       ([todoDone, todoOpen].filter (fun t => !truthy t.completed)).countP
         (fun t => truthy t.completed) = 0) :=
  ⟨rfl, rfl,
   clear_completed_count_invariant "f" "n" "todos.json" [todoDone, todoOpen] fsPair rfl rfl⟩

/-- C9: storage never enforces id uniqueness.  With a well-typed stored
collection in which indices `i < j` both carry the id `id0` (and no index
before `i` does), `add u` appends unconditionally even though `u.id` is
already stored, `get` returns the item at `i`, `update u` replaces only
the item at `i`, and `delete` removes only the item at `i`, returning
`True` after that single removal. -/
theorem storage_duplicate_ids_first_match (fresh now p : String) (u : Todo)
    (id0 : String) (todos : List Todo) (fs : FS)
    (hv : todos.all Todo.valid = true)
    (hfs : fs p = some (TodoStorage.dumpTodos todos))
    (huid : u.id = .str id0)
    (i j : Nat) (ti tj : Todo)
    (hij : i < j)
    (hti : todos.get? i = some ti) (htj : todos.get? j = some tj)
    (hmi : pyEq ti.id (.str id0) = true) (hmj : pyEq tj.id (.str id0) = true)
    (hpre : (todos.take i).all (fun t => !pyEq t.id (.str id0)) = true) :
    TodoStorage.add fresh now p u fs = (.ok (), TodoStorage.save p (todos ++ [u]) fs) ∧
      TodoStorage.get fresh now p id0 fs = (.ok (some ti), fs) ∧
      TodoStorage.update fresh now p u fs =
        (.ok true, TodoStorage.save p (todos.set i u) fs) ∧
      TodoStorage.delete fresh now p id0 fs =
        (.ok true, TodoStorage.save p (todos.eraseIdx i) fs) := by
  have hload := load_dump fresh now p todos fs hv hfs
  have hfind := find?_take (fun t => pyEq t.id (.str id0)) todos i ti hti hmi hpre
  have hidx := firstMatchIdx_take (fun t => pyEq t.id (.str id0)) todos i ti hti hmi hpre
  refine ⟨?_, ?_, ?_, ?_⟩
  · simp only [TodoStorage.add, hload]
  · simp only [TodoStorage.get, hload, hfind]
  · simp only [TodoStorage.update, hload, huid, hidx]
  · simp only [TodoStorage.delete, hload, hidx]

theorem storage_duplicate_ids_first_match_witness :
    ([todoDupA, todoDupB].all Todo.valid = true) ∧
      (fsDup "todos.json" = some (TodoStorage.dumpTodos [todoDupA, todoDupB])) ∧
      (todoDupNew.id = PyVal.str "x") ∧
      ((0 : Nat) < 1) ∧
      ([todoDupA, todoDupB].get? 0 = some todoDupA) ∧
      ([todoDupA, todoDupB].get? 1 = some todoDupB) ∧
      (pyEq todoDupA.id (.str "x") = true) ∧
      (pyEq todoDupB.id (.str "x") = true) ∧
      (([todoDupA, todoDupB].take 0).all (fun t => !pyEq t.id (.str "x")) = true) ∧
      (TodoStorage.add "f" "n" "todos.json" todoDupNew fsDup =
          (.ok (), TodoStorage.save "todos.json" ([todoDupA, todoDupB] ++ [todoDupNew]) fsDup) ∧
        TodoStorage.get "f" "n" "todos.json" "x" fsDup = (.ok (some todoDupA), fsDup) ∧
        TodoStorage.update "f" "n" "todos.json" todoDupNew fsDup =
          (.ok true, TodoStorage.save "todos.json" ([todoDupA, todoDupB].set 0 todoDupNew) fsDup) ∧
        TodoStorage.delete "f" "n" "todos.json" "x" fsDup =
          (.ok true, TodoStorage.save "todos.json" ([todoDupA, todoDupB].eraseIdx 0) fsDup)) :=
  ⟨rfl, rfl, rfl, Nat.zero_lt_one, rfl, rfl, rfl, rfl, rfl,
   storage_duplicate_ids_first_match "f" "n" "todos.json" todoDupNew "x"
     [todoDupA, todoDupB] fsDup rfl rfl rfl 0 1 todoDupA todoDupB Nat.zero_lt_one
     rfl rfl rfl rfl rfl⟩

/-- C5 counterexample: with `completed` false and the due date
`"1999-01-01T00:00:00+00:00"` — present, parsing as a date, and strictly
before the current moment — `is_overdue` is nevertheless false: the
parse yields an aware datetime, comparing it with the naive
`datetime.now()` raises `TypeError`, and the `except` clause turns that
into False.  So the claim's iff fails at this input. -/
theorem is_overdue_claim_counterexample :
    truthy todoTz.completed = false ∧
      todoTz.due_date = .str "1999-01-01T00:00:00+00:00" ∧
      fromisoformat "1999-01-01T00:00:00+00:00" = .ok dueTz ∧
      DateTime.lt dueTz.dt nowRef = true ∧
      todoTz.is_overdue nowRef = false :=
  ⟨rfl, rfl, rfl, rfl, rfl⟩

/-- C5 amended: `is_overdue` is true iff the completed field is falsy and
the due date is a string that parses as a datetime without a timezone
offset that is strictly before the current moment.  A due date that is
absent, unparseable, or parses with an offset (aware) yields false — in
the aware case because comparing it with the naive `datetime.now()`
raises `TypeError`, which the same `except` clause catches.  `is_overdue`
is a total Bool, so it never raises for any value of `due_date`. -/
theorem is_overdue_iff_naive_due_before_now (t : Todo) (now : DateTime) :
    t.is_overdue now = true ↔
      (truthy t.completed = false ∧
       ∃ s due, t.due_date = .str s ∧ fromisoformat s = .ok due ∧
         due.tz = Option.none ∧ DateTime.lt due.dt now = true) := by
  unfold Todo.is_overdue
  cases hc : truthy t.completed
  · simp only [Bool.false_or]
    cases hd : t.due_date with
    | none => simp [truthy]
    | str s =>
      by_cases hs : s = ""
      · subst hs
        simp [truthy, show fromisoformat "" = .error .valueError from rfl]
      · have hst : (s != "") = true := by
          simpa [bne_iff_ne] using hs
        simp only [truthy, hst, Bool.not_true, Bool.false_eq_true, if_false,
          fromisoformatPy]
        cases hp : fromisoformat s with
        | ok due =>
          cases htz : due.tz with
          | none => simp [hp, ltNowPy, htz]
          | some off => simp [hp, ltNowPy, htz]
        | error e => simp [hp]
    | priority p0 =>
      cases p0 <;>
        simp [truthy, fromisoformatPy, Priority.value,
          show fromisoformat "low" = .error .valueError from rfl,
          show fromisoformat "medium" = .error .valueError from rfl,
          show fromisoformat "high" = .error .valueError from rfl]
    | bool b => cases b <;> simp [truthy, fromisoformatPy]
    | int n =>
      rcases Bool.eq_false_or_eq_true (n != 0) with hn | hn <;>
        simp [truthy, fromisoformatPy, hn]
    | list xs =>
      rcases Bool.eq_false_or_eq_true xs.isEmpty with hn | hn <;>
        simp [truthy, fromisoformatPy, hn]
    | dict kvs =>
      rcases Bool.eq_false_or_eq_true kvs.isEmpty with hn | hn <;>
        simp [truthy, fromisoformatPy, hn]
  · simp

end Todocli
